import Mathlib

/-!
# MemeMarket core engine: shallow embedding and verification

This file embeds the market-simulation / wager-resolution core of the
`mememarket` repository in Lean 4 and proves (or refutes) a fixed list of
behavioural claims about it.

Conventions of the embedding:

* TypeScript `number` is modelled as `ℚ` (all the arithmetic the claims touch
  is exact decimal / integer arithmetic, so `ℚ` is faithful); timestamps are
  `ℤ` (milliseconds since epoch, except `RedditPost.created` which the source
  stores in *seconds* and multiplies by 1000 at use sites — we keep that).
* `Math.floor` is `Int.floor`, `Math.round x` is `⌊x + 1/2⌋` (JS rounds half
  towards +∞), `Math.max`/`Math.min` are `max`/`min`.
* `Math.random()` results are passed in as explicit parameters.
* `Math.log` (used only inside the initial-price formula) is passed in as an
  arbitrary function parameter; all statements hold for every such function.
* Fields of the TS interfaces that no embedded operation reads (display-only
  strings such as `postUrl`, `postTitle`, `name`, `description`, `rules`,
  icon/colour fields, …) are omitted from the Lean structures.
* A JS value that can be `NaN`/absent is modelled with `Option`
  (`none` = `NaN` resp. `undefined`/`null`).
-/

/-- JS `Math.round`: round half towards +∞. -/
def jsRound (x : ℚ) : ℤ := ⌊x + 1/2⌋

/-- `Math.round(x * 100) / 100` — round to 2 decimals, used for prices. -/
def round2 (x : ℚ) : ℚ := (jsRound (x * 100) : ℚ) / 100

/-- `Math.max(1.1, Math.min(50.0, x))` — the final odds clamp. -/
def clampOdds (x : ℚ) : ℚ := max 1.1 (min 50.0 x)

theorem clampOdds_mem (x : ℚ) : 1.1 ≤ clampOdds x ∧ clampOdds x ≤ 50 := by
  unfold clampOdds
  refine ⟨le_max_left _ _, max_le (by norm_num) ?_⟩
  exact le_trans (min_le_left _ _) (by norm_num)

/-! ## Data model (src/types/index.ts) -/

inductive Trend where
  | up | down | stable
deriving DecidableEq

inductive PredStatus where
  | active | won | lost | pending
deriving DecidableEq

/-- The five prediction types of the `Prediction.predictionType` union. -/
inductive PredType where
  | growth_rate | milestone_reach | ranking_position | engagement_ratio | virality_index
deriving DecidableEq

/-- The lowercase id string of a prediction type — the value the UI state
variables hold (`'growth_rate'`, …) and the value stored in a `Prediction`. -/
def PredType.toId : PredType → String
  | .growth_rate => "growth_rate"
  | .milestone_reach => "milestone_reach"
  | .ranking_position => "ranking_position"
  | .engagement_ratio => "engagement_ratio"
  | .virality_index => "virality_index"

inductive Timeframe where
  | SHORT | MEDIUM | LONG | EXTENDED
deriving DecidableEq

/-- `PREDICTION_TIMEFRAMES[tf].hours` (src/utils/constants.ts). -/
def Timeframe.hours : Timeframe → ℕ
  | .SHORT => 6
  | .MEDIUM => 12
  | .LONG => 24
  | .EXTENDED => 48

/-- The uppercase key string of a timeframe (`'LONG'`, …). -/
def Timeframe.toKey : Timeframe → String
  | .SHORT => "SHORT"
  | .MEDIUM => "MEDIUM"
  | .LONG => "LONG"
  | .EXTENDED => "EXTENDED"

structure RedditPost where
  id : String
  title : String
  subreddit : String
  score : ℤ
  commentCount : ℤ
  /-- Creation time in epoch *seconds* (the source multiplies by 1000). -/
  created : ℤ
  thumbnail : Option String := none
  selftext : Option String := none
deriving DecidableEq

structure MarketData where
  postId : String
  currentPrice : ℚ
  previousPrice : ℚ
  volume : ℤ
  changePercent : ℚ
  lastUpdated : ℤ
  trend : Trend
  ranking : Option ℤ := none
deriving DecidableEq

structure Prediction where
  id : String
  userId : String
  postId : String
  predictionType : PredType
  targetValue : ℚ
  timeframe : Timeframe
  betAmount : ℚ
  odds : ℚ
  status : PredStatus
  /-- Creation time in epoch milliseconds (`Date.now()`). -/
  created : ℤ
  /-- `resolved : number | null` — a *required* field of the TS interface
  (set to `null` on placement), so JS `'resolved' in prediction` is `true`. -/
  resolved : Option ℤ
  baselineValue : ℚ
deriving DecidableEq

structure Achievement where
  id : String
  unlockedAt : ℤ
deriving DecidableEq

structure UserPortfolio where
  userId : String
  memeCoins : ℚ
  predictions : List Prediction
  achievements : List Achievement := []
  level : ℕ
  experience : ℚ
  stakedCoins : ℚ
  stakingRewards : ℚ
  lastStakingClaim : ℤ
  tournamentPoints : ℚ := 0
  currentTournament : Option String := none
deriving DecidableEq

/-! ## Constants (src/utils/constants.ts) -/

namespace GameConfig

def INITIAL_MEMECOINS : ℚ := 1000
def MIN_BET_AMOUNT : ℚ := 10
def MAX_BET_AMOUNT : ℚ := 1000
def BASE_VOLATILITY : ℚ := 0.02
def RANDOM_VOLATILITY_RANGE : ℚ := 0.02
def MIN_VOLATILITY : ℚ := 0.005
def VOLATILITY_MULTIPLIER : ℚ := 1.0
def TIME_MULTIPLIER_MAX : ℚ := 1.5
def TIME_MULTIPLIER_BASE : ℚ := 30
def RANDOM_FACTOR_RANGE : ℚ := 0.03
def TRENDING_BIAS_FACTOR : ℚ := 0.005
def MAX_PRICE_CHANGE_PERCENT : ℚ := 0.5
def MIN_PRICE : ℚ := 0.01
def VOLUME_INCREASE_MIN : ℤ := 5
def VOLUME_INCREASE_MAX : ℤ := 30
def PREDICTION_EXPIRY_HOURS : ℤ := 24
def SCORE_MULTIPLIER : ℚ := 0.001
def MAX_SCORE_VALUE : ℚ := 2.0

end GameConfig

/-- `SUBREDDIT_MULTIPLIERS[s] || 1.0` — lookup with neutral default. -/
def subredditMultiplier (s : String) : ℚ :=
  if s = "memes" then 1.3
  else if s = "programmerhumor" then 1.4
  else if s = "gaming" then 1.2
  else if s = "cats" then 1.3
  else if s = "askreddit" then 1.5
  else if s = "todayilearned" then 1.4
  else if s = "nextfuckinglevel" then 1.6
  else if s = "interestingasfuck" then 1.5
  else if s = "wtf" then 1.2
  else if s = "politics" then 1.1
  else if s = "funny" then 1.2
  else if s = "aww" then 1.4
  else if s = "news" then 1.1
  else 1.0

/-- One entry of `PREDICTION_TYPES`. -/
structure PredTypeConfig where
  id : String
  baseOdds : ℚ
deriving DecidableEq

/-- `PREDICTION_TYPES[predictionType]`: the object is keyed by the UPPERCASE
constant names (`GROWTH_RATE`, …), while each entry's `id` is lowercase. -/
def predictionTypesLookup (s : String) : Option PredTypeConfig :=
  if s = "GROWTH_RATE" then some ⟨"growth_rate", 2.0⟩
  else if s = "MILESTONE_REACH" then some ⟨"milestone_reach", 1.8⟩
  else if s = "RANKING_POSITION" then some ⟨"ranking_position", 3.0⟩
  else if s = "ENGAGEMENT_RATIO" then some ⟨"engagement_ratio", 2.5⟩
  else if s = "VIRALITY_INDEX" then some ⟨"virality_index", 4.0⟩
  else none

/-- `PREDICTION_TIMEFRAMES[timeframe]?.baseMultiplier || 1.0` in
`calculateOdds` (string-keyed, uppercase keys). -/
def timeframeBaseMultiplier (s : String) : ℚ :=
  if s = "SHORT" then 1.5
  else if s = "MEDIUM" then 1.2
  else if s = "LONG" then 1.0
  else if s = "EXTENDED" then 0.8
  else 1.0

/-- One entry of `STAKING_TIERS`; `maxAmount = none` models `Infinity`. -/
structure StakingTier where
  minAmount : ℚ
  maxAmount : Option ℚ
  apr : ℚ
deriving DecidableEq

def STAKING_TIERS : List StakingTier :=
  [⟨0, some 999, 5.0⟩, ⟨1000, some 4999, 8.5⟩, ⟨5000, some 9999, 12.0⟩, ⟨10000, none, 15.0⟩]

namespace TournamentConfig

def ENTRY_FEE : ℚ := 100
def MAX_PARTICIPANTS : ℕ := 100
def PRIZE_DISTRIBUTION : List ℚ := [0.5, 0.25, 0.15, 0.1]
def POINTS_PER_WIN : ℚ := 10
def POINTS_PER_LOSS : ℚ := -2
def BONUS_MULTIPLIER : ℚ := 1.5

end TournamentConfig

/-- `LEVELS` experience thresholds (level, experience). -/
def LEVELS : List (ℕ × ℚ) :=
  [(1, 0), (2, 100), (3, 250), (4, 500), (5, 1000),
   (6, 2000), (7, 3500), (8, 5000), (9, 7500), (10, 10000)]

/-- `calculateLevel` (src/utils/helpers.ts): scan `LEVELS` from the top,
return the first level whose threshold the experience meets (fallback 1).
Only the `level` component is modelled; `title`/`progress` are display-only. -/
def calculateLevel (experience : ℚ) : ℕ :=
  ((LEVELS.reverse.find? (fun l => decide (l.2 ≤ experience))).map Prod.fst).getD 1

/-! ## StakingService (src/services/RedditAPI.ts) -/

namespace StakingService

/-- `getStakingTier`: first tier with `min ≤ amount ≤ max`, else tier 0. -/
def getStakingTier (amount : ℚ) : StakingTier :=
  (STAKING_TIERS.find? (fun t =>
    decide (t.minAmount ≤ amount) &&
      match t.maxAmount with
      | some m => decide (amount ≤ m)
      | none => true)).getD ⟨0, some 999, 5.0⟩

/-- `calculateStakingRewards`: `max(0, floor(staked · apr/100/365 · hours/24))`
with `hours = (now − lastStakingClaim) / 3 600 000`. -/
def calculateStakingRewards (now : ℤ) (p : UserPortfolio) : ℤ :=
  let tier := getStakingTier p.stakedCoins
  let hoursSinceLastClaim : ℚ := ((now - p.lastStakingClaim : ℤ) : ℚ) / (1000 * 60 * 60)
  let dailyRate := tier.apr / 100 / 365
  let dailyReward := p.stakedCoins * dailyRate
  let reward := dailyReward * (hoursSinceLastClaim / 24)
  max 0 ⌊reward⌋

/-- `claimRewards`: credit the reward to balance and to the cumulative
counter, reset the claim clock to `now`. -/
def claimRewards (now : ℤ) (p : UserPortfolio) : UserPortfolio :=
  let rewards := calculateStakingRewards now p
  { p with
    memeCoins := p.memeCoins + rewards
    stakingRewards := p.stakingRewards + rewards
    lastStakingClaim := now }

/-- `stakeCoins` (throws on `amount > memeCoins`, modelled as `Except`). -/
def stakeCoins (now : ℤ) (p : UserPortfolio) (amount : ℚ) : Except String UserPortfolio :=
  if p.memeCoins < amount then .error "Insufficient MemeCoins to stake"
  else .ok { p with
    memeCoins := p.memeCoins - amount
    stakedCoins := p.stakedCoins + amount
    lastStakingClaim := now }

end StakingService

/-- C7 helper fact: a claim at time `now` zeroes the claimable reward at `now`. -/
theorem calculateStakingRewards_after_claim (now : ℤ) (p : UserPortfolio) :
    StakingService.calculateStakingRewards now (StakingService.claimRewards now p) = 0 := by
  unfold StakingService.calculateStakingRewards StakingService.claimRewards
  simp

/-- **C7** — Staking no-double-count: after `claimRewards` at time `now`, a
second `claimRewards` at the same time computes reward `0` and leaves the
balance (`memeCoins`) and the cumulative `stakingRewards` counter unchanged. -/
theorem claimRewards_no_double_count (now : ℤ) (p : UserPortfolio) :
    StakingService.calculateStakingRewards now (StakingService.claimRewards now p) = 0 ∧
    (StakingService.claimRewards now (StakingService.claimRewards now p)).memeCoins =
      (StakingService.claimRewards now p).memeCoins ∧
    (StakingService.claimRewards now (StakingService.claimRewards now p)).stakingRewards =
      (StakingService.claimRewards now p).stakingRewards := by
  set q := StakingService.claimRewards now p with hq
  have h : StakingService.calculateStakingRewards now q = 0 := by
    rw [hq]; exact calculateStakingRewards_after_claim now p
  refine ⟨h, ?_, ?_⟩ <;> simp [StakingService.claimRewards, h]

/-! ## PredictionEngine (src/services/PredictionEngine.ts) -/

inductive TimeOfDay where
  | peak | normal | quiet
deriving DecidableEq

namespace PredictionEngine

/-- Market conditions derived by `analyzeMarketConditions`. -/
structure MarketConditions where
  postAge : ℚ
  currentRanking : ℚ
  subredditMultiplier : ℚ
  timeOfDay : TimeOfDay
  currentUpvotes : ℤ
  currentComments : ℤ
  growthRate : ℚ
deriving DecidableEq

/-- Time-of-day bucket from `new Date().getHours()`. -/
def timeOfDayOf (hour : ℕ) : TimeOfDay :=
  if 20 ≤ hour ∧ hour ≤ 22 then .peak
  else if 22 ≤ hour ∨ hour ≤ 10 then .quiet
  else .normal

/-- `calculateGrowthRate`: upvotes per hour, `0` for non-positive age. -/
def calculateGrowthRate (now : ℤ) (post : RedditPost) : ℚ :=
  let postAge : ℚ := (((now : ℚ) - (post.created : ℚ) * 1000)) / (1000 * 60 * 60)
  if postAge ≤ 0 then 0 else (post.score : ℚ) / postAge

/-- `analyzeMarketConditions` (`hour` is the wall-clock hour of day). -/
def analyzeMarketConditions (now : ℤ) (hour : ℕ) (post : RedditPost) (md : MarketData) :
    MarketConditions :=
  { postAge := (((now : ℚ) - (post.created : ℚ) * 1000)) / (1000 * 60 * 60)
    currentRanking :=
      match md.ranking with
      | some r => if r = 0 then 50 else (r : ℚ)   -- `marketData.ranking || 50`
      | none => 50
    subredditMultiplier := subredditMultiplier post.subreddit
    timeOfDay := timeOfDayOf hour
    currentUpvotes := post.score
    currentComments := post.commentCount
    growthRate := calculateGrowthRate now post }

/-- `MARKET_DYNAMICS.VOLATILITY_FACTORS.POST_AGE_HOURS` bucket lookup. -/
def postAgeFactor (age : ℚ) : ℚ :=
  if age ≤ 1 then 1.0
  else if age ≤ 3 then 0.8
  else if age ≤ 6 then 0.6
  else if age ≤ 12 then 0.4
  else if age ≤ 24 then 0.3
  else 0.2

/-- `MARKET_DYNAMICS.VOLATILITY_FACTORS.CURRENT_RANKING` bucket lookup. -/
def rankingFactor (r : ℚ) : ℚ :=
  if r ≤ 5 then 0.9
  else if r ≤ 20 then 0.7
  else if r ≤ 50 then 0.5
  else 0.3

/-- `MARKET_DYNAMICS.VOLATILITY_FACTORS.TIME_OF_DAY` lookup. -/
def timeOfDayFactor : TimeOfDay → ℚ
  | .peak => 1.2
  | .normal => 1.0
  | .quiet => 0.8

/-- `calculateVolatilityFactor`. -/
def calculateVolatilityFactor (c : MarketConditions) : ℚ :=
  1.0 * postAgeFactor c.postAge * rankingFactor c.currentRanking * timeOfDayFactor c.timeOfDay

/-- `calculateDifficultyMultiplier`: the `switch (predictionType)` on the
*lowercase* id strings.  JS float corner cases of the two divisions:
a `d/0` with `d ≠ 0` is `±Infinity` (clamped by the following `min`/`max`),
and `0/0` is `NaN`, which propagates through `min`/`max` — modelled as
`none`. -/
def calculateDifficultyMultiplier (predictionType : String) (post : RedditPost)
    (targetValue : ℚ) (c : MarketConditions) : Option ℚ :=
  if predictionType = "growth_rate" then
    let expectedGrowth := c.growthRate * 24
    if expectedGrowth = 0 then
      (if targetValue = 0 then none else some 2.0)
    else
      some (max 0.5 (min 2.0 (1 + |targetValue - expectedGrowth| / expectedGrowth)))
  else if predictionType = "milestone_reach" then
    some (max 0.8 (min 3.0 (targetValue / max 1 (post.score : ℚ) / 2)))
  else if predictionType = "ranking_position" then
    some (if targetValue ≤ 5 then 2.5
      else if targetValue ≤ 20 then 1.8
      else if targetValue ≤ 50 then 1.2
      else 0.8)
  else if predictionType = "engagement_ratio" then
    let currentRatio := (post.commentCount : ℚ) / max 1 (post.score : ℚ)
    if currentRatio = 0 then
      (if targetValue = 0 then none else some 2.5)
    else
      some (max 0.7 (min 2.5 (1 + |targetValue - currentRatio| / currentRatio)))
  else if predictionType = "virality_index" then some 2.0
  else some 1.0

/-- `calculateOdds`: note that `PREDICTION_TYPES` is keyed by the UPPERCASE
constant names, so a lowercase id (the value the UI passes) misses the table
and takes the `return 2.0` default path. -/
def calculateOdds (now : ℤ) (hour : ℕ) (post : RedditPost) (md : MarketData)
    (predictionType : String) (targetValue : ℚ) (timeframe : String) : Option ℚ :=
  match predictionTypesLookup predictionType with
  | none => some 2.0
  | some predictionConfig =>
    let marketConditions := analyzeMarketConditions now hour post md
    let volatilityFactor := calculateVolatilityFactor marketConditions
    let timeMultiplier := timeframeBaseMultiplier timeframe
    let subMult := subredditMultiplier post.subreddit
    (calculateDifficultyMultiplier predictionType post targetValue marketConditions).map
      (fun difficultyMultiplier =>
        clampOdds (predictionConfig.baseOdds * volatilityFactor * timeMultiplier * subMult *
          difficultyMultiplier))

/-- `calculateViralityScore`.  For `age = 0` the JS denominator is `0` and the
score is `±Infinity`/`NaN`, never within a finite tolerance band — modelled as
`none`. -/
def calculateViralityScore (now : ℤ) (post : RedditPost) (md : MarketData) : Option ℚ :=
  let age : ℚ := (((now : ℚ) - (post.created : ℚ) * 1000)) / (1000 * 60 * 60)
  let ranking : ℚ :=
    match md.ranking with
    | some r => if r = 0 then 100 else (r : ℚ)    -- `marketData.ranking || 100`
    | none => 100
  let growthRate := (post.score : ℚ) / max 1 age
  let engagement := (post.score : ℚ) + (post.commentCount : ℚ) * 2
  let competition := max 1 (ranking / 10)
  if age = 0 then none else some ((engagement * growthRate) / (age * competition))

/-- `resolvePrediction`: `false` until the timeframe deadline, then the
per-type win condition. -/
def resolvePrediction (now : ℤ) (p : Prediction) (post : RedditPost) (md : MarketData) : Bool :=
  let resolutionTime := p.created + (p.timeframe.hours : ℤ) * (60 * 60 * 1000)
  if now < resolutionTime then false
  else
    match p.predictionType with
    | .growth_rate =>
      let actualGrowthRate := ((post.score : ℚ) - p.baselineValue) / (p.timeframe.hours : ℚ)
      decide (|actualGrowthRate - p.targetValue| ≤ p.targetValue * 0.1)
    | .milestone_reach => decide (p.targetValue ≤ (post.score : ℚ))
    | .ranking_position =>
      match md.ranking with
      | some r => decide ((r : ℚ) = p.targetValue)
      | none => false                               -- `undefined === target`
    | .engagement_ratio =>
      let actualRatio := (post.commentCount : ℚ) / max 1 (post.score : ℚ)
      decide (|actualRatio - p.targetValue| ≤ p.targetValue * 0.15)
    | .virality_index =>
      match calculateViralityScore now post md with
      | some v => decide (|v - p.targetValue| ≤ p.targetValue * 0.2)
      | none => false
end PredictionEngine

/-! ### C3 — growth-rate resolution formula and concrete scenario -/

/-- Concrete scenario post: score 1300 after 24 h (created at epoch 0 s). -/
def c3Post : RedditPost :=
  { id := "p1", title := "t", subreddit := "memes", score := 1300, commentCount := 50,
    created := 0 }

def c3Md : MarketData :=
  { postId := "p1", currentPrice := 1, previousPrice := 1, volume := 0, changePercent := 0,
    lastUpdated := 0, trend := .stable, ranking := none }

/-- Concrete scenario prediction: `growth_rate`, baseline 100, LONG (24 h),
target 50. -/
def c3Pred : Prediction :=
  { id := "pr1", userId := "u1", postId := "p1", predictionType := .growth_rate,
    targetValue := 50, timeframe := .LONG, betAmount := 10, odds := 2, status := .active,
    created := 0, resolved := none, baselineValue := 100 }

/-- **C3** — a `growth_rate` prediction at or past its deadline resolves to won
iff `|((score − baseline)/timeframeHours) − target| ≤ 0.10·target`; in
particular, with baseline 100, LONG (24 h), target 50 and score 1300 after
24 h it resolves to won. -/
theorem resolvePrediction_growth_rate (now : ℤ) (p : Prediction) (post : RedditPost)
    (md : MarketData) (h1 : p.predictionType = .growth_rate)
    (h2 : p.created + (p.timeframe.hours : ℤ) * (60 * 60 * 1000) ≤ now) :
    (PredictionEngine.resolvePrediction now p post md = true ↔
      |((post.score : ℚ) - p.baselineValue) / (p.timeframe.hours : ℚ) - p.targetValue| ≤
        p.targetValue * 0.1) ∧
    PredictionEngine.resolvePrediction 86400000 c3Pred c3Post c3Md = true := by
  constructor
  · unfold PredictionEngine.resolvePrediction
    rw [if_neg (not_lt.mpr h2), h1]
    simp
  · norm_num [PredictionEngine.resolvePrediction, c3Pred, c3Post, c3Md, Timeframe.hours]

/-- Witness for C3: the hypotheses hold at the concrete scenario input. -/
theorem resolvePrediction_growth_rate_witness :
    ((PredictionEngine.resolvePrediction 86400000 c3Pred c3Post c3Md = true ↔
      |((c3Post.score : ℚ) - c3Pred.baselineValue) / (c3Pred.timeframe.hours : ℚ) -
        c3Pred.targetValue| ≤ c3Pred.targetValue * 0.1) ∧
      PredictionEngine.resolvePrediction 86400000 c3Pred c3Post c3Md = true) :=
  resolvePrediction_growth_rate 86400000 c3Pred c3Post c3Md rfl
    (by norm_num [c3Pred, Timeframe.hours])

/-! ### C5 — odds bounds -/

/-- `calculateDifficultyMultiplier` can only be `NaN` (= `none`) for the
`growth_rate` / `engagement_ratio` branches of the switch. -/
theorem difficulty_none_cases (pt : String) (post : RedditPost) (t : ℚ)
    (c : PredictionEngine.MarketConditions)
    (h : PredictionEngine.calculateDifficultyMultiplier pt post t c = none) :
    pt = "growth_rate" ∨ pt = "engagement_ratio" := by
  unfold PredictionEngine.calculateDifficultyMultiplier at h
  split_ifs at h <;> simp_all

/-- **C5** — for every input, `calculateOdds` returns a value (never `NaN`)
inside `[1.1, 50]`, and an unrecognized prediction type (any string missing
from `PREDICTION_TYPES`) yields the neutral default `2.0`. -/
theorem calculateOdds_bounds (now : ℤ) (hour : ℕ) (post : RedditPost) (md : MarketData)
    (predictionType : String) (targetValue : ℚ) (timeframe : String) :
    (∃ q, PredictionEngine.calculateOdds now hour post md predictionType targetValue
        timeframe = some q ∧ 1.1 ≤ q ∧ q ≤ 50) ∧
    (predictionTypesLookup predictionType = none →
      PredictionEngine.calculateOdds now hour post md predictionType targetValue
        timeframe = some 2.0) := by
  unfold PredictionEngine.calculateOdds
  cases hcfg : predictionTypesLookup predictionType with
  | none => exact ⟨⟨2.0, rfl, by norm_num, by norm_num⟩, fun _ => rfl⟩
  | some cfg =>
    constructor
    · cases hdd : PredictionEngine.calculateDifficultyMultiplier predictionType post
        targetValue (PredictionEngine.analyzeMarketConditions now hour post md) with
      | none =>
        exfalso
        rcases difficulty_none_cases _ _ _ _ hdd with h | h
        · subst h
          have hn : predictionTypesLookup "growth_rate" = none := rfl
          rw [hn] at hcfg
          exact Option.noConfusion hcfg
        · subst h
          have hn : predictionTypesLookup "engagement_ratio" = none := rfl
          rw [hn] at hcfg
          exact Option.noConfusion hcfg
      | some d =>
        refine ⟨clampOdds (cfg.baseOdds *
            PredictionEngine.calculateVolatilityFactor
              (PredictionEngine.analyzeMarketConditions now hour post md) *
            timeframeBaseMultiplier timeframe * subredditMultiplier post.subreddit * d),
          ?_, (clampOdds_mem _).1, (clampOdds_mem _).2⟩
        simp [hdd]
    · intro h
      exact Option.noConfusion h

/-- Witness for C5: the app's own lowercase id `'growth_rate'` misses the
uppercase-keyed `PREDICTION_TYPES` table, so it takes the 2.0 default path. -/
theorem calculateOdds_default_witness :
    PredictionEngine.calculateOdds 0 12 c3Post c3Md "growth_rate" 50 "LONG" = some 2.0 :=
  (calculateOdds_bounds 0 12 c3Post c3Md "growth_rate" 50 "LONG").2 (by rfl)

/-! ## MarketEngine (src/services/MarketEngine.ts) -/

namespace MarketEngine

/-- `calculateMarketVolatility` (`randVol` = `Math.random()`). -/
def calculateMarketVolatility (randVol sectorMult : ℚ) : ℚ :=
  max GameConfig.MIN_VOLATILITY
      (GameConfig.BASE_VOLATILITY + (randVol - 0.5) * GameConfig.RANDOM_VOLATILITY_RANGE) *
    sectorMult * GameConfig.VOLATILITY_MULTIPLIER

/-- `updatePostPrice` for one tracked quote (the `rand…` arguments are the
successive `Math.random()` draws). -/
def updatePostPrice (now : ℤ) (sectorMult randVol randFactor randTrend randVolume randRank : ℚ)
    (currentData : MarketData) : MarketData :=
  let previousPrice := currentData.currentPrice
  let marketVolatility := calculateMarketVolatility randVol sectorMult
  let timeSinceLastUpdate : ℚ := ((now - currentData.lastUpdated : ℤ) : ℚ) / (1000 * 60)
  let timeMultiplier :=
    min GameConfig.TIME_MULTIPLIER_MAX (timeSinceLastUpdate / GameConfig.TIME_MULTIPLIER_BASE)
  let randomFactor := (randFactor - 0.5) * GameConfig.RANDOM_FACTOR_RANGE * timeMultiplier
  let trendingBias := randTrend * GameConfig.TRENDING_BIAS_FACTOR * timeMultiplier
  let totalChange := marketVolatility + randomFactor + trendingBias
  let sectorAdjustedChange := totalChange * sectorMult
  let priceChange := max (-GameConfig.MAX_PRICE_CHANGE_PERCENT)
    (min GameConfig.MAX_PRICE_CHANGE_PERCENT sectorAdjustedChange)
  let newPrice := max GameConfig.MIN_PRICE (previousPrice * (1 + priceChange))
  { currentData with
    currentPrice := round2 newPrice
    previousPrice := previousPrice
    changePercent := (jsRound (((newPrice - previousPrice) / previousPrice) * 10000) : ℚ) / 100
    trend := if previousPrice < newPrice then .up
      else if newPrice < previousPrice then .down else .stable
    lastUpdated := now
    volume := currentData.volume + ⌊randVolume * 30⌋ + 5
    ranking := some (⌊randRank * 100⌋ + 1) }

/-- `calculateContentMultiplier`. -/
def calculateContentMultiplier (post : RedditPost) : ℚ :=
  let titleLength := post.title.length
  let m1 : ℚ :=
    if 40 ≤ titleLength ∧ titleLength ≤ 100 then 1.1
    else if titleLength < 20 ∨ 150 < titleLength then 0.9
    else 1.0
  let m2 : ℚ :=
    match post.selftext with          -- `post.selftext && length > 100`
    | some s => if 100 < s.length then 1.05 else 1.0
    | none => 1.0
  let m3 : ℚ :=
    match post.thumbnail with         -- `post.thumbnail && post.thumbnail !== 'self'`
    | some th => if th ≠ "" ∧ th ≠ "self" then 1.15 else 1.0
    | none => 1.0
  m1 * m2 * m3

/-- `calculateInitialPrice`.  `Math.log` is an arbitrary function parameter
`log`; `rand` is the `Math.random()` of the ±15% jitter. -/
def calculateInitialPrice (log : ℚ → ℚ) (now : ℤ) (sectorMult rand : ℚ)
    (post : RedditPost) : ℚ :=
  let basePrice : ℚ := 0.1
  let scoreValue := min ((post.score : ℚ) * GameConfig.SCORE_MULTIPLIER) GameConfig.MAX_SCORE_VALUE
  let commentValue := log (max 1 (post.commentCount : ℚ)) * 0.05
  let ageInHours : ℚ := ((now : ℚ) - (post.created : ℚ) * 1000) / (1000 * 60 * 60)
  let freshnessMultiplier := max 0.1 (min 2.0 (1 + (24 - ageInHours) * 0.02))
  let subMult := subredditMultiplier post.subreddit.toLower
  let contentMultiplier := calculateContentMultiplier post
  let volatility := 1 + (rand - 0.5) * 0.3
  let finalPrice := (basePrice + scoreValue + commentValue) * freshnessMultiplier *
    subMult * sectorMult * contentMultiplier * volatility
  max 0.01 (round2 finalPrice)

/-- `initializePostMarket`. -/
def initializePostMarket (log : ℚ → ℚ) (now : ℤ) (sectorMult randPrice randVolume : ℚ)
    (post : RedditPost) : MarketData :=
  let initialPrice := calculateInitialPrice log now sectorMult randPrice post
  { postId := post.id
    currentPrice := initialPrice
    previousPrice := initialPrice
    volume := ⌊randVolume * 1000⌋ + 100
    changePercent := 0
    lastUpdated := now
    trend := .stable
    ranking := none }

/-- The per-quote price update of `triggerMarketEvent` (impact −0.3 for a
crash, +0.2 for a boom). -/
def applyMarketEvent (now : ℤ) (impact : ℚ) (data : MarketData) : MarketData :=
  let newPrice := max 0.01 (data.currentPrice * (1 + impact))
  { data with
    currentPrice := newPrice
    previousPrice := data.currentPrice
    changePercent := ((newPrice - data.currentPrice) / data.currentPrice) * 100
    trend := if data.currentPrice < newPrice then .up else .down
    lastUpdated := now }

/-- One quote-mutating operation of the engine. -/
inductive MarketOp where
  | tick (now : ℤ) (sectorMult randVol randFactor randTrend randVolume randRank : ℚ)
  | event (crash : Bool) (now : ℤ)

/-- Apply one operation to one tracked quote. -/
def stepQuote (q : MarketData) : MarketOp → MarketData
  | .tick now sectorMult rv rf rt rvol rr => updatePostPrice now sectorMult rv rf rt rvol rr q
  | .event crash now => applyMarketEvent now (if crash then -0.3 else 0.2) q

/-- Any interleaving of ticks and shock events applied to one quote. -/
def runMarketOps (q : MarketData) (ops : List MarketOp) : MarketData :=
  ops.foldl stepQuote q

end MarketEngine

theorem round2_price_floor (x : ℚ) (h : (0.01 : ℚ) ≤ x) : (0.01 : ℚ) ≤ round2 x := by
  unfold round2 jsRound
  have h1 : (1 : ℤ) ≤ ⌊x * 100 + 1 / 2⌋ := by
    rw [Int.le_floor]
    push_cast
    linarith
  calc (0.01 : ℚ) = (1 : ℚ) / 100 := by norm_num
    _ ≤ (⌊x * 100 + 1 / 2⌋ : ℚ) / 100 := by
        apply div_le_div_of_nonneg_right _ (by norm_num)
        exact_mod_cast h1
    _ = _ := rfl

theorem updatePostPrice_floor (now : ℤ) (s rv rf rt rvol rr : ℚ) (q : MarketData) :
    GameConfig.MIN_PRICE ≤ (MarketEngine.updatePostPrice now s rv rf rt rvol rr q).currentPrice := by
  unfold MarketEngine.updatePostPrice GameConfig.MIN_PRICE
  exact round2_price_floor _ (le_max_left _ _)

theorem applyMarketEvent_floor (now : ℤ) (impact : ℚ) (q : MarketData) :
    GameConfig.MIN_PRICE ≤ (MarketEngine.applyMarketEvent now impact q).currentPrice := by
  unfold MarketEngine.applyMarketEvent GameConfig.MIN_PRICE
  exact le_max_left _ _

theorem stepQuote_floor (q : MarketData) (op : MarketEngine.MarketOp) :
    GameConfig.MIN_PRICE ≤ (MarketEngine.stepQuote q op).currentPrice := by
  cases op with
  | tick now s rv rf rt rvol rr => exact updatePostPrice_floor now s rv rf rt rvol rr q
  | event crash now => exact applyMarketEvent_floor now _ q

theorem runMarketOps_floor (q : MarketData) (ops : List MarketEngine.MarketOp)
    (h : GameConfig.MIN_PRICE ≤ q.currentPrice) :
    GameConfig.MIN_PRICE ≤ (MarketEngine.runMarketOps q ops).currentPrice := by
  induction ops generalizing q with
  | nil => exact h
  | cons op ops ih => exact ih (MarketEngine.stepQuote q op) (stepQuote_floor q op)

/-- **C6** — price floor: a quote created by `initializePostMarket` keeps
`currentPrice ≥ MIN_PRICE = 0.01` under any number of price ticks and
crash/boom shock events, for every post, every sector multiplier, every
random draw and every `Math.log` behaviour. -/
theorem price_floor_invariant (log : ℚ → ℚ) (now : ℤ) (sectorMult randPrice randVolume : ℚ)
    (post : RedditPost) (ops : List MarketEngine.MarketOp) :
    GameConfig.MIN_PRICE ≤
      (MarketEngine.runMarketOps
        (MarketEngine.initializePostMarket log now sectorMult randPrice randVolume post)
        ops).currentPrice := by
  apply runMarketOps_floor
  unfold MarketEngine.initializePostMarket MarketEngine.calculateInitialPrice GameConfig.MIN_PRICE
  exact le_max_left _ _

namespace MarketEngine

/-- The `portfolio.predictions.map(...)` body of `resolvePredictions`:
resolve one prediction against the fetched posts.  `rand` supplies the
`Math.random()` draw of the `ranking_position` placeholder, keyed by
prediction id.  Note two quirks kept from the source: no check of the
prediction's timeframe deadline, and the expiry test subtracts `post.created`
(epoch *seconds*) from `Date.now()` (milliseconds) without scaling. -/
def resolveOne (now : ℤ) (redditPosts : List RedditPost) (rand : String → ℚ)
    (prediction : Prediction) : Prediction :=
  if prediction.status ≠ .active then prediction
  else
    match redditPosts.find? (fun p => decide (p.id = prediction.postId)) with
    | none => prediction
    | some post =>
      let postAge : ℚ := ((now : ℚ) - (post.created : ℚ) * 1000) / (1000 * 60 * 60)
      let isWon : Bool :=
        match prediction.predictionType with
        | .growth_rate =>
          let actualValue := (post.score : ℚ) / max 1 postAge
          decide (|actualValue - prediction.targetValue| ≤ prediction.targetValue * 0.1)
        | .milestone_reach => decide (prediction.targetValue ≤ (post.score : ℚ))
        | .ranking_position =>
          let actualValue : ℚ := (⌊rand prediction.id * 50⌋ : ℚ) + 1
          decide (actualValue = prediction.targetValue)
        | .engagement_ratio =>
          let actualValue := (post.commentCount : ℚ) / max 1 (post.score : ℚ)
          decide (|actualValue - prediction.targetValue| ≤ prediction.targetValue * 0.15)
        | .virality_index =>
          let actualValue := ((post.score : ℚ) + (post.commentCount : ℚ) * 2) / max 1 postAge
          decide (|actualValue - prediction.targetValue| ≤ prediction.targetValue * 0.2)
      if isWon then { prediction with status := .won, resolved := some now }
      else
        let postAgeMs := now - post.created
        if GameConfig.PREDICTION_EXPIRY_HOURS * 60 * 60 * 1000 < postAgeMs then
          { prediction with status := .lost, resolved := some now }
        else prediction

/-- `resolvePredictions`: map `resolveOne` over the portfolio, then credit
`betAmount × odds` (and `floor(0.1 × winnings)` experience) for **every**
prediction whose status is `won` — the `'resolved' in prediction` guard of the
source is always true because `resolved` is a required field of the TS
`Prediction` interface (see `Prediction.resolved`). -/
def resolvePredictions (now : ℤ) (rand : String → ℚ) (portfolio : UserPortfolio)
    (redditPosts : List RedditPost) : UserPortfolio :=
  let updatedPredictions := portfolio.predictions.map (resolveOne now redditPosts rand)
  let credit := updatedPredictions.foldl
    (fun (acc : ℚ × ℚ) prediction =>
      if prediction.status = .won then
        let winnings := prediction.betAmount * prediction.odds
        (acc.1 + winnings, acc.2 + (⌊winnings * 0.1⌋ : ℚ))
      else acc)
    (portfolio.memeCoins, portfolio.experience)
  { portfolio with
    predictions := updatedPredictions
    memeCoins := credit.1
    experience := credit.2
    level := calculateLevel credit.2 }

end MarketEngine

/-! ### C1 — re-resolving an already-won prediction -/

/-- A prediction that has already been resolved to `won` (with its `resolved`
timestamp set), exactly as a first `resolvePredictions` call leaves it. -/
def c1Pred : Prediction :=
  { id := "pr1", userId := "u1", postId := "p1", predictionType := .growth_rate,
    targetValue := 50, timeframe := .LONG, betAmount := 10, odds := 2, status := .won,
    created := 0, resolved := some 500, baselineValue := 100 }

def c1Port : UserPortfolio :=
  { userId := "u1", memeCoins := 100, predictions := [c1Pred], level := 1, experience := 0,
    stakedCoins := 0, stakingRewards := 0, lastStakingClaim := 0 }

/-- **C1 counter-evidence** — `resolvePredictions` on a portfolio whose only
prediction is already `won` leaves the predictions array unchanged but credits
`betAmount × odds = 20` again: the balance moves from 100 to 120, so
re-resolution is *not* a no-op. -/
theorem resolvePredictions_double_credit :
    (MarketEngine.resolvePredictions 1000 (fun _ => 0) c1Port []).predictions =
      c1Port.predictions ∧
    (MarketEngine.resolvePredictions 1000 (fun _ => 0) c1Port []).memeCoins = 120 ∧
    c1Port.memeCoins = 100 := by
  refine ⟨?_, ?_, rfl⟩ <;>
    norm_num [MarketEngine.resolvePredictions, MarketEngine.resolveOne, c1Port, c1Pred]

/-! ### C2 — resolution before the timeframe deadline -/

/-- Post created at epoch second 3600 (1 h old at `now = 7 200 000 ms`),
score 100. -/
def c2Post : RedditPost :=
  { id := "p2", title := "t", subreddit := "memes", score := 100, commentCount := 10,
    created := 3600 }

/-- Active `growth_rate` prediction created at `now` itself with a 24 h (LONG)
timeframe and target 100 — its deadline is 24 h away. -/
def c2Pred : Prediction :=
  { id := "pr2", userId := "u1", postId := "p2", predictionType := .growth_rate,
    targetValue := 100, timeframe := .LONG, betAmount := 10, odds := 2, status := .active,
    created := 7200000, resolved := none, baselineValue := 100 }

def c2Port : UserPortfolio :=
  { userId := "u1", memeCoins := 100, predictions := [c2Pred], level := 1, experience := 0,
    stakedCoins := 0, stakingRewards := 0, lastStakingClaim := 0 }

/-- **C2 counter-evidence** — at `now = 7 200 000`, far before the prediction's
deadline `created + 24 h`, `MarketEngine.resolvePredictions` already marks the
prediction `won` and credits the winnings: the win condition
(`100 / max(1, 1 h) = 100 = target`) is evaluated immediately, with no check
of `created + timeframe.hours`. -/
theorem resolvePredictions_ignores_deadline :
    (7200000 : ℤ) < c2Pred.created + (c2Pred.timeframe.hours : ℤ) * (60 * 60 * 1000) ∧
    ((MarketEngine.resolvePredictions 7200000 (fun _ => 0) c2Port [c2Post]).predictions.map
      Prediction.status) = [PredStatus.won] ∧
    (MarketEngine.resolvePredictions 7200000 (fun _ => 0) c2Port [c2Post]).memeCoins =
      c2Port.memeCoins + c2Pred.betAmount * c2Pred.odds := by
  refine ⟨by norm_num [c2Pred, Timeframe.hours], ?_, ?_⟩ <;>
    norm_num [MarketEngine.resolvePredictions, MarketEngine.resolveOne, c2Port, c2Pred,
      c2Post, List.find?]

/-! ## Bet placement (src/components/Market/PostCard.tsx + MarketView.tsx) -/

/-- The rejection reasons of the bet path (each an `alert(...)` + early
return in the source, i.e. a validation failure that never mutates state). -/
inductive BetError where
  | belowMinimumBet | aboveMaximumBet | insufficientBalance | postNotFound
deriving DecidableEq

/-- The `Omit<Prediction, 'id' | 'userId' | 'status' | 'created' | 'resolved'>`
record `handleBet` builds and passes to `onPlaceBet`. -/
structure PredictionIntent where
  postId : String
  predictionType : PredType
  targetValue : ℚ
  timeframe : Timeframe
  betAmount : ℚ
  odds : ℚ
  baselineValue : ℚ
deriving DecidableEq

namespace MarketView

/-- `handlePlaceBet` (MarketView.tsx): re-checks the balance, looks the post
up in `trendingPosts`, then atomically debits the balance, appends the new
`active` prediction (`resolved: null`) and credits 5% of the stake as
experience.  `predId` stands for the generated random id. -/
def handlePlaceBet (now : ℤ) (predId : String) (portfolio : UserPortfolio)
    (trendingPosts : List RedditPost) (predictionData : PredictionIntent) :
    Except BetError UserPortfolio :=
  if portfolio.memeCoins < predictionData.betAmount then .error .insufficientBalance
  else
    match trendingPosts.find? (fun p => decide (p.id = predictionData.postId)) with
    | none => .error .postNotFound
    | some _post =>
      let prediction : Prediction :=
        { id := predId
          userId := portfolio.userId
          postId := predictionData.postId
          predictionType := predictionData.predictionType
          targetValue := predictionData.targetValue
          timeframe := predictionData.timeframe
          betAmount := predictionData.betAmount
          odds := predictionData.odds
          status := .active
          created := now
          resolved := none
          baselineValue := predictionData.baselineValue }
      let experienceGained : ℚ := (⌊predictionData.betAmount * 0.05⌋ : ℚ)
      let newExperience := portfolio.experience + experienceGained
      .ok { portfolio with
        memeCoins := portfolio.memeCoins - predictionData.betAmount
        predictions := portfolio.predictions ++ [prediction]
        experience := newExperience
        level := calculateLevel newExperience }

end MarketView

namespace PostCard

/-- `handleBet` (PostCard.tsx): validates minimum bet, maximum bet and
balance, computes the odds with `calculateOdds`, builds the intent (with the
per-type baseline) and hands it to `MarketView.handlePlaceBet`.  The
`calculateOdds` result is `.getD 0` — it is never `none`
(`calculateOdds_bounds`). -/
def handleBet (now : ℤ) (hour : ℕ) (predId : String) (portfolio : UserPortfolio)
    (trendingPosts : List RedditPost) (post : RedditPost) (marketData : MarketData)
    (predictionType : PredType) (targetValue : ℚ) (timeframe : Timeframe)
    (betAmount : ℚ) : Except BetError UserPortfolio :=
  if betAmount < GameConfig.MIN_BET_AMOUNT then .error .belowMinimumBet
  else if GameConfig.MAX_BET_AMOUNT < betAmount then .error .aboveMaximumBet
  else if portfolio.memeCoins < betAmount then .error .insufficientBalance
  else
    let odds := (PredictionEngine.calculateOdds now hour post marketData
      predictionType.toId targetValue timeframe.toKey).getD 0
    let baselineValue : ℚ :=
      match predictionType with
      | .growth_rate => (post.score : ℚ)
      | .milestone_reach => (post.score : ℚ)
      | .engagement_ratio => (post.commentCount : ℚ) / max 1 (post.score : ℚ)
      | .virality_index => ((post.score : ℚ) + (post.commentCount : ℚ) * 2) /
          max 1 (((now : ℚ) - (post.created : ℚ) * 1000) / (1000 * 60 * 60))
      | .ranking_position => (post.score : ℚ)
    MarketView.handlePlaceBet now predId portfolio trendingPosts
      { postId := post.id
        predictionType := predictionType
        targetValue := targetValue
        timeframe := timeframe
        betAmount := betAmount
        odds := odds
        baselineValue := baselineValue }

end PostCard

/-- The portfolio the game state holds after the bet attempt: updated on
success, untouched when the attempt was rejected. -/
def portfolioAfterBet (r : Except BetError UserPortfolio) (portfolio : UserPortfolio) :
    UserPortfolio :=
  match r with
  | .ok updated => updated
  | .error _ => portfolio

/-- **C4** — a bet of `MIN_BET_AMOUNT − 1 = 9` MemeCoins is rejected by the
minimum-bet validation for every portfolio and every other input, and the
portfolio (balance, predictions, experience, …) is left unchanged. -/
theorem handleBet_rejects_below_minimum (now : ℤ) (hour : ℕ) (predId : String)
    (portfolio : UserPortfolio) (trendingPosts : List RedditPost) (post : RedditPost)
    (marketData : MarketData) (predictionType : PredType) (targetValue : ℚ)
    (timeframe : Timeframe) :
    PostCard.handleBet now hour predId portfolio trendingPosts post marketData
      predictionType targetValue timeframe (GameConfig.MIN_BET_AMOUNT - 1) =
      .error .belowMinimumBet ∧
    portfolioAfterBet
      (PostCard.handleBet now hour predId portfolio trendingPosts post marketData
        predictionType targetValue timeframe (GameConfig.MIN_BET_AMOUNT - 1))
      portfolio = portfolio := by
  have h : PostCard.handleBet now hour predId portfolio trendingPosts post marketData
      predictionType targetValue timeframe (GameConfig.MIN_BET_AMOUNT - 1) =
      .error .belowMinimumBet := by
    unfold PostCard.handleBet
    rw [if_pos]
    unfold GameConfig.MIN_BET_AMOUNT
    norm_num
  exact ⟨h, by rw [h]; rfl⟩

/-! ## TournamentService (src/services/TournamentService.ts) -/

inductive TournamentStatus where
  | upcoming | active | completed
deriving DecidableEq

structure TournamentParticipant where
  userId : String
  username : String
  points : ℚ
  rank : ℕ
  predictions : ℕ
  winRate : ℚ
deriving DecidableEq

structure Tournament where
  id : String
  startDate : ℤ
  endDate : ℤ
  prizePool : ℚ
  entryFee : ℚ
  maxParticipants : ℕ
  currentParticipants : ℕ
  status : TournamentStatus
  leaderboard : List TournamentParticipant
deriving DecidableEq

/-- `leaderboard.sort((a, b) => b.points - a.points)` — stable sort by points,
descending. -/
def byPointsDesc (a b : TournamentParticipant) : Prop := b.points ≤ a.points

instance : DecidableRel byPointsDesc := fun a b =>
  inferInstanceAs (Decidable (b.points ≤ a.points))

instance : IsTotal TournamentParticipant byPointsDesc :=
  ⟨fun a b => le_total b.points a.points⟩

instance : IsTrans TournamentParticipant byPointsDesc :=
  ⟨fun _ _ _ hab hbc => le_trans hbc hab⟩

namespace TournamentService

/-- Result of `joinTournament`; on an error the tournament and the portfolio
are returned as they were (the source returns before any mutation). -/
structure JoinResult where
  error : Option String
  tournament : Tournament
  portfolio : UserPortfolio
deriving DecidableEq

/-- The participant object `joinTournament` appends. -/
def newParticipant (tournament : Tournament) (portfolio : UserPortfolio) :
    TournamentParticipant :=
  { userId := portfolio.userId
    username := "Player_" ++ portfolio.userId.drop (portfolio.userId.length - 4)
    points := 0
    rank := tournament.leaderboard.length + 1
    predictions := 0
    winRate := 0 }

/-- `joinTournament` applied to the tournament the id lookup found. -/
def joinTournament (tournament : Tournament) (portfolio : UserPortfolio) : JoinResult :=
  if tournament.status ≠ .upcoming then
    ⟨some "Tournament has already started", tournament, portfolio⟩
  else if tournament.maxParticipants ≤ tournament.currentParticipants then
    ⟨some "Tournament is full", tournament, portfolio⟩
  else if portfolio.memeCoins < tournament.entryFee then
    ⟨some "Insufficient MemeCoins for entry fee", tournament, portfolio⟩
  else if (tournament.leaderboard.find?
      (fun p => decide (p.userId = portfolio.userId))).isSome then
    ⟨some "Already participating in this tournament", tournament, portfolio⟩
  else
    ⟨none,
      { tournament with
        leaderboard := tournament.leaderboard ++ [newParticipant tournament portfolio]
        currentParticipants := tournament.currentParticipants + 1
        prizePool := tournament.prizePool + tournament.entryFee },
      { portfolio with
        memeCoins := portfolio.memeCoins - tournament.entryFee
        currentTournament := some tournament.id
        tournamentPoints := 0 }⟩

/-- Result of `endTournament` (`tournament` is the mutated tournament). -/
structure EndResult where
  tournament : Tournament
  winners : List TournamentParticipant
  prizes : List ℤ
deriving DecidableEq

/-- `endTournament`: from `active` only; completes the tournament, sorts the
leaderboard descending by points, computes
`PRIZE_DISTRIBUTION.map(r => Math.floor(prizePool * r))` and returns the
first `prizes.length` leaderboard entries as winners. -/
def endTournament (now : ℤ) (tournament : Tournament) : EndResult :=
  if tournament.status ≠ .active then ⟨tournament, [], []⟩
  else
    let sorted := List.insertionSort byPointsDesc tournament.leaderboard
    let t1 := { tournament with status := .completed, endDate := now, leaderboard := sorted }
    let prizes := TournamentConfig.PRIZE_DISTRIBUTION.map
      (fun ratio => ⌊tournament.prizePool * ratio⌋)
    let winners := sorted.take prizes.length
    ⟨t1, winners, prizes⟩

end TournamentService

/-! ### C8 — joining the same tournament twice -/

theorem joinTournament_success_shape (t : Tournament) (p : UserPortfolio)
    (h : (TournamentService.joinTournament t p).error = none) :
    t.status = .upcoming ∧ t.currentParticipants < t.maxParticipants ∧
    t.leaderboard.find? (fun x => decide (x.userId = p.userId)) = none ∧
    (TournamentService.joinTournament t p).tournament =
      { t with
        leaderboard := t.leaderboard ++ [TournamentService.newParticipant t p]
        currentParticipants := t.currentParticipants + 1
        prizePool := t.prizePool + t.entryFee } := by
  unfold TournamentService.joinTournament at h ⊢
  split_ifs at h ⊢ with ha hb hc hd
  exact ⟨not_not.mp ha, not_le.mp hb, Option.not_isSome_iff_eq_none.mp hd, rfl⟩

/-- **C8** — tournament uniqueness and join atomicity: after a successful join
by `p`, a second `joinTournament` on the resulting tournament by any
portfolio `q` with the same `userId` returns an error, and that failed call
returns the tournament (leaderboard, `currentParticipants`, `prizePool`, …)
and the caller's portfolio unchanged. -/
theorem joinTournament_second_join_fails (t : Tournament) (p q : UserPortfolio)
    (h1 : (TournamentService.joinTournament t p).error = none)
    (h2 : q.userId = p.userId) :
    (TournamentService.joinTournament
      (TournamentService.joinTournament t p).tournament q).error ≠ none ∧
    (TournamentService.joinTournament
      (TournamentService.joinTournament t p).tournament q).tournament =
      (TournamentService.joinTournament t p).tournament ∧
    (TournamentService.joinTournament
      (TournamentService.joinTournament t p).tournament q).portfolio = q := by
  obtain ⟨hst, hfull, hfind, ht'⟩ := joinTournament_success_shape t p h1
  rw [ht']
  unfold TournamentService.joinTournament
  split_ifs with c1 c2 c3 c4
  · exact ⟨by simp, rfl, rfl⟩
  · exact ⟨by simp, rfl, rfl⟩
  · exact ⟨by simp, rfl, rfl⟩
  · exact ⟨by simp, rfl, rfl⟩
  · exfalso
    apply c4
    have hmem : TournamentService.newParticipant t p ∈
        ({ t with
          leaderboard := t.leaderboard ++ [TournamentService.newParticipant t p]
          currentParticipants := t.currentParticipants + 1
          prizePool := t.prizePool + t.entryFee } : Tournament).leaderboard := by
      simp
    cases hf : (({ t with
        leaderboard := t.leaderboard ++ [TournamentService.newParticipant t p]
        currentParticipants := t.currentParticipants + 1
        prizePool := t.prizePool + t.entryFee } : Tournament).leaderboard.find?
        (fun x => decide (x.userId = q.userId))) with
    | some x => rfl
    | none =>
      exact absurd (by simp [TournamentService.newParticipant, h2])
        (List.find?_eq_none.mp hf _ hmem)

def c8T : Tournament :=
  { id := "t1", startDate := 0, endDate := 86400000, prizePool := 0, entryFee := 100,
    maxParticipants := 100, currentParticipants := 0, status := .upcoming, leaderboard := [] }

def c8P : UserPortfolio :=
  { userId := "u1", memeCoins := 1000, predictions := [], level := 1, experience := 0,
    stakedCoins := 0, stakingRewards := 0, lastStakingClaim := 0 }

/-- Witness for C8 at a concrete tournament and portfolio. -/
theorem joinTournament_second_join_fails_witness :
    (TournamentService.joinTournament
      (TournamentService.joinTournament c8T c8P).tournament c8P).error ≠ none ∧
    (TournamentService.joinTournament
      (TournamentService.joinTournament c8T c8P).tournament c8P).tournament =
      (TournamentService.joinTournament c8T c8P).tournament ∧
    (TournamentService.joinTournament
      (TournamentService.joinTournament c8T c8P).tournament c8P).portfolio = c8P :=
  joinTournament_second_join_fails c8T c8P c8P (by rfl) rfl

/-! ### C10 — ending a tournament: prizes and winners -/

/-- **C10** — ending an `active` tournament computes the prizes as
`floor(prizePool · r)` over `PRIZE_DISTRIBUTION = [0.5, 0.25, 0.15, 0.1]`,
their sum never exceeds the prize pool, and the winners are exactly the top
4 entries (or fewer) of the leaderboard sorted descending by points. -/
theorem endTournament_active (now : ℤ) (t : Tournament) (h : t.status = .active) :
    (TournamentService.endTournament now t).prizes =
      [⌊t.prizePool * 0.5⌋, ⌊t.prizePool * 0.25⌋, ⌊t.prizePool * 0.15⌋,
        ⌊t.prizePool * 0.1⌋] ∧
    (((TournamentService.endTournament now t).prizes.sum : ℤ) : ℚ) ≤ t.prizePool ∧
    (TournamentService.endTournament now t).winners =
      (List.insertionSort byPointsDesc t.leaderboard).take 4 ∧
    (TournamentService.endTournament now t).winners.length = min 4 t.leaderboard.length ∧
    List.Sorted byPointsDesc (List.insertionSort byPointsDesc t.leaderboard) := by
  have hne : ¬(t.status ≠ .active) := by simp [h]
  unfold TournamentService.endTournament
  rw [if_neg hne]
  refine ⟨rfl, ?_, rfl, ?_, List.sorted_insertionSort _ _⟩
  · have f1 := Int.floor_le (t.prizePool * 0.5)
    have f2 := Int.floor_le (t.prizePool * 0.25)
    have f3 := Int.floor_le (t.prizePool * 0.15)
    have f4 := Int.floor_le (t.prizePool * 0.1)
    simp only [TournamentConfig.PRIZE_DISTRIBUTION, List.map, List.sum_cons, List.sum_nil]
    push_cast
    linarith
  · simp only [TournamentConfig.PRIZE_DISTRIBUTION, List.map, List.length_take,
      List.length_cons, List.length_nil]
    rw [(List.perm_insertionSort byPointsDesc t.leaderboard).length_eq]

def c10A : TournamentParticipant :=
  { userId := "a", username := "Player_a", points := 5, rank := 1, predictions := 0,
    winRate := 0 }

def c10B : TournamentParticipant :=
  { userId := "b", username := "Player_b", points := 9, rank := 2, predictions := 0,
    winRate := 0 }

def c10T : Tournament :=
  { id := "t2", startDate := 0, endDate := 86400000, prizePool := 400, entryFee := 100,
    maxParticipants := 100, currentParticipants := 2, status := .active,
    leaderboard := [c10A, c10B] }

/-- Witness for C10 at a concrete active tournament with prize pool 400 and a
two-entry leaderboard. -/
theorem endTournament_active_witness :
    (TournamentService.endTournament 0 c10T).prizes =
      [⌊c10T.prizePool * 0.5⌋, ⌊c10T.prizePool * 0.25⌋, ⌊c10T.prizePool * 0.15⌋,
        ⌊c10T.prizePool * 0.1⌋] ∧
    (((TournamentService.endTournament 0 c10T).prizes.sum : ℤ) : ℚ) ≤ c10T.prizePool ∧
    (TournamentService.endTournament 0 c10T).winners =
      (List.insertionSort byPointsDesc c10T.leaderboard).take 4 ∧
    (TournamentService.endTournament 0 c10T).winners.length = min 4 c10T.leaderboard.length ∧
    List.Sorted byPointsDesc (List.insertionSort byPointsDesc c10T.leaderboard) :=
  endTournament_active 0 c10T rfl

/-! ## AnalyticsService (src/services/AnalyticsService.ts) -/

/-- `.sort((a, b) => b.created - a.created)` — most recent first. -/
def byCreatedDesc (a b : Prediction) : Prop := b.created ≤ a.created

instance : DecidableRel byCreatedDesc := fun a b =>
  inferInstanceAs (Decidable (b.created ≤ a.created))

instance : IsTotal Prediction byCreatedDesc := ⟨fun a b => le_total b.created a.created⟩

instance : IsTrans Prediction byCreatedDesc := ⟨fun _ _ _ hab hbc => le_trans hbc hab⟩

namespace AnalyticsService

/-- The running-streak state of the `calculateStreaks` loop. -/
structure TempStreaks where
  tempWin : ℕ
  tempLoss : ℕ
  bestWin : ℕ
  bestLoss : ℕ
deriving DecidableEq

structure StreakStats where
  currentWinStreak : ℕ
  currentLossStreak : ℕ
  bestWinStreak : ℕ
  bestLossStreak : ℕ
  totalPredictions : ℕ
  totalWins : ℕ
  totalLosses : ℕ
deriving DecidableEq

/-- `calculateStreaks`: filter resolved predictions, sort most-recent-first,
run the streak loop over that order, and take the loop's *final* temp values
as the "current" streaks keyed on the most recent prediction's status. -/
def calculateStreaks (portfolio : UserPortfolio) : StreakStats :=
  let completedPredictions := List.insertionSort byCreatedDesc
    (portfolio.predictions.filter
      (fun p => decide (p.status = .won) || decide (p.status = .lost)))
  let s := completedPredictions.foldl
    (fun (st : TempStreaks) prediction =>
      if prediction.status = .won then
        { st with
          tempWin := st.tempWin + 1
          tempLoss := 0
          bestWin := max st.bestWin (st.tempWin + 1) }
      else
        { st with
          tempLoss := st.tempLoss + 1
          tempWin := 0
          bestLoss := max st.bestLoss (st.tempLoss + 1) })
    ⟨0, 0, 0, 0⟩
  let current : ℕ × ℕ :=
    match completedPredictions with
    | [] => (0, 0)
    | mostRecent :: _ =>
      if mostRecent.status = .won then (s.tempWin, 0) else (0, s.tempLoss)
  { currentWinStreak := current.1
    currentLossStreak := current.2
    bestWinStreak := s.bestWin
    bestLossStreak := s.bestLoss
    totalPredictions := completedPredictions.length
    totalWins := (completedPredictions.filter (fun p => decide (p.status = .won))).length
    totalLosses := (completedPredictions.filter (fun p => decide (p.status = .lost))).length }

end AnalyticsService

/-- The current win streak as the spec words it: the number of consecutive
`won` predictions counting backward in time from the most recent resolved
prediction. -/
def specCurrentWinStreak (portfolio : UserPortfolio) : ℕ :=
  ((List.insertionSort byCreatedDesc
    (portfolio.predictions.filter
      (fun p => decide (p.status = .won) || decide (p.status = .lost)))).takeWhile
    (fun p => decide (p.status = .won))).length

/-- Most recent resolved prediction: `won` at `created = 2`. -/
def c9PredWon : Prediction :=
  { id := "w", userId := "u1", postId := "p1", predictionType := .milestone_reach,
    targetValue := 100, timeframe := .LONG, betAmount := 10, odds := 2, status := .won,
    created := 2, resolved := some 3, baselineValue := 0 }

/-- Older resolved prediction: `lost` at `created = 1`. -/
def c9PredLost : Prediction :=
  { id := "l", userId := "u1", postId := "p1", predictionType := .milestone_reach,
    targetValue := 100, timeframe := .LONG, betAmount := 10, odds := 2, status := .lost,
    created := 1, resolved := some 2, baselineValue := 0 }

def c9Port : UserPortfolio :=
  { userId := "u1", memeCoins := 100, predictions := [c9PredWon, c9PredLost], level := 1,
    experience := 0, stakedCoins := 0, stakingRewards := 0, lastStakingClaim := 0 }

/-- **C9 counter-evidence** — for a portfolio whose resolved predictions are
`won` (most recent) then `lost`, the code reports a current win streak of 0,
while counting consecutive wins backward from the most recent resolved
prediction gives 1: the loop's final temp counters describe the run at the
*oldest* end of the most-recent-first ordering. -/
theorem calculateStreaks_current_mismatch :
    c9PredWon.status = .won ∧
    (AnalyticsService.calculateStreaks c9Port).currentWinStreak = 0 ∧
    specCurrentWinStreak c9Port = 1 := by
  refine ⟨rfl, ?_, ?_⟩ <;>
    simp [AnalyticsService.calculateStreaks, specCurrentWinStreak, c9Port, c9PredWon,
      c9PredLost, byCreatedDesc, List.insertionSort, List.orderedInsert]
